import Mathlib

/-!
Shallow embedding of `src/process_data.py`, a one-shot batch converter that
pairs `(name.json, name.<ext>)` files, decodes each video to frames, and
writes rotated, channel-swapped frames plus the calibration JSON.

Modelling conventions:
* Timestamps (Python floats) are modelled as rationals; the tolerance
  literal `1e-3` becomes `1/1000 : ℚ`.
* A decoded frame array (`frame.to_ndarray(format="rgb24")`, always
  height × width × 3) is an `Img`: explicit `h`, `w` dimensions plus a pixel
  function over row, column and a `Fin 3` channel.
* Python exceptions are the `PyErr` codes; fallible code returns `Except`.
* Filesystem writes are modelled as a list of `WriteEvent`s (path plus
  content); external library calls (`cv.rotate`, `cv.cvtColor`, PyAV decode)
  are modelled by their documented array semantics.
-/

namespace ProcessData

/-- Python exceptions that the modelled code can raise. -/
inductive PyErr where
  | indexError
  | assertionError
  | nameError
  deriving DecidableEq, Repr

/-- A decoded video frame image: `h × w × 3`, 8-bit channels modelled as `ℕ`. -/
structure Img where
  h : ℕ
  w : ℕ
  pix : ℕ → ℕ → Fin 3 → ℕ

/-- One decoded container frame: its presentation time (`frame.time`) and its
`rgb24` ndarray (`frame.to_ndarray(format="rgb24")`). -/
structure Frame where
  time : ℚ
  data : Img

/-- One entry of the calibration record's `frames` list, carrying its
`timestamp` field. -/
structure CalFrame where
  timestamp : ℚ

/-- The calibration record as consumed by `load_video`:
`calibration_data['sessionStartTime']` and `calibration_data['frames']`. -/
structure Calib where
  sessionStartTime : ℚ
  frames : List CalFrame

/-- The body of the `if calibration_data is not None` block in `load_video`
(lines 31-35 of `process_data.py`) for frame index `idx` with frame time `t`:

* `calibration_data['frames'][idx]` raises `IndexError` when `idx` is out of
  range;
* `assert abs(abs_ts - ...) < 1e-3` raises `AssertionError` when the
  deviation is not below the tolerance;
* otherwise the next line reads the undefined name `timestamps` and raises
  `NameError`.

The `.ok` branch is unreachable: the block always raises. -/
def frameCheck (c : Calib) (idx : ℕ) (t : ℚ) : Except PyErr Unit :=
  if h : idx < c.frames.length then
    if |t + c.sessionStartTime - (c.frames.get ⟨idx, h⟩).timestamp| < 1/1000 then
      Except.error PyErr.nameError
    else
      Except.error PyErr.assertionError
  else
    Except.error PyErr.indexError

/-- The decode loop of `load_video` (lines 21-36): each frame's ndarray is
appended to the accumulator first; when calibration data is present the
timestamp check runs afterwards and any exception aborts the loop. -/
def loadVideoAux (cal : Option Calib) (idx : ℕ) (acc : List Img) :
    List Frame → Except PyErr (List Img)
  | [] => Except.ok acc.reverse
  | f :: rest =>
    match cal with
    | none => loadVideoAux none (idx + 1) (f.data :: acc) rest
    | some c =>
      match frameCheck c idx f.time with
      | Except.error e => Except.error e
      | Except.ok _ => loadVideoAux (some c) (idx + 1) (f.data :: acc) rest

/-- Model of `load_video(fp, calibration_data)`: the container's decoded
frames are the input list; returns the in-memory frame sequence or the
exception that aborted decoding. -/
def load_video (frames : List Frame) (cal : Option Calib) :
    Except PyErr (List Img) :=
  loadVideoAux cal 0 [] frames

/-- Model of `cv.cvtColor(frame, cv.COLOR_RGB2BGR)`: the three channels are
reversed in place (`Fin.rev` sends 0 ↔ 2, fixes 1); dimensions unchanged. -/
def bgrSwap (m : Img) : Img :=
  { h := m.h, w := m.w, pix := fun i j c => m.pix i j c.rev }

/-- Model of `cv.rotate(frame, cv.ROTATE_90_CLOCKWISE)`: an `h × w` image
becomes `w × h`, with `dst[i][j] = src[h-1-j][i]`. -/
def rotCW (m : Img) : Img :=
  { h := m.w, w := m.h, pix := fun i j c => m.pix (m.h - 1 - j) i c }

/-- Model of `cv.rotate(·, cv.ROTATE_90_COUNTERCLOCKWISE)`, the inverse
rotation: an `h × w` image becomes `w × h`, with `dst[i][j] = src[j][w-1-i]`. -/
def rotCCW (m : Img) : Img :=
  { h := m.w, w := m.h, pix := fun i j c => m.pix j (m.w - 1 - i) c }

/-- The write-time transform applied to each decoded frame in `main`
(lines 70-71): RGB→BGR channel conversion followed by 90° clockwise
rotation. -/
def writtenImg (m : Img) : Img :=
  rotCW (bgrSwap m)

/-- Model of `os.path.join` (POSIX) for two components. -/
def pathJoin (a b : String) : String :=
  if b.startsWith "/" then b
  else if a = "" ∨ a.endsWith "/" then a ++ b
  else a ++ "/" ++ b

/-- Left-to-right, non-overlapping replacement of the nonempty pattern `pat`
by `rep` in a character list — the semantics of Python `str.replace` for a
nonempty pattern. Recursion is on a fuel bound; each step consumes at least
one character, so fuel equal to the list length suffices. -/
def replaceLoop (pat rep : List Char) : ℕ → List Char → List Char
  | _, [] => []
  | 0, cs => cs
  | fuel + 1, c :: cs =>
    if pat.isPrefixOf (c :: cs) then
      rep ++ replaceLoop pat rep fuel ((c :: cs).drop pat.length)
    else
      c :: replaceLoop pat rep fuel cs

/-- Model of Python `str.replace(pat, rep)`. The program only calls it with
the nonempty pattern `"_calibration"`, so the empty-pattern case is left as
the identity. -/
def strReplace (s pat rep : String) : String :=
  match pat.data with
  | [] => s
  | _ :: _ => ⟨replaceLoop pat.data rep.data s.data.length s.data⟩

/-- Model of `pathlib.Path(fp).stem` for a plain directory-entry name (no
path separators, as produced by `os.listdir`): drop the part of the name
from the last `'.'` on, provided that dot is neither the first nor the last
character. -/
def pathStem (s : String) : String :=
  let cs := s.data
  match cs.reverse.indexOf? '.' with
  | none => s
  | some r =>
    let i := cs.length - 1 - r
    if 0 < i ∧ i < cs.length - 1 then ⟨cs.take i⟩ else s

/-- Model of `names.add(x)` on a Python `set` represented as a duplicate-free
list in first-insertion order. -/
def setAdd (l : List String) (x : String) : List String :=
  if x ∈ l then l else l ++ [x]

/-- The name-collection loop of `get_paired_data` (lines 41-45): for each
directory entry, take its stem, strip every `"_calibration"` occurrence, and
add the result to the set of base names. -/
def collectNames (entries : List String) : List String :=
  entries.foldl (fun acc fp => setAdd acc (strReplace (pathStem fp) "_calibration" "")) []

/-- Model of `get_paired_data(root_dir, video_ext)`: the directory listing is
the input `entries`; for each collected base name, construct the pair
`(root_dir/<name>.json, root_dir/<name>.<ext>)` without any existence
check. -/
def get_paired_data (root_dir : String) (entries : List String)
    (video_ext : String) : List (String × String) :=
  (collectNames entries).map (fun name =>
    (pathJoin root_dir (name ++ ".json"),
     pathJoin root_dir (name ++ "." ++ video_ext)))

/-- A filesystem write performed by `main` for one pair: either the
calibration JSON dump (carrying the serialized value, of an arbitrary JSON
value type `α`) or one frame image file. -/
inductive WriteEvent (α : Type) where
  | jsonFile (path : String) (content : α)
  | imageFile (path : String) (img : Img)

/-- Whether a write event is the calibration JSON dump. -/
def WriteEvent.isJson {α : Type} : WriteEvent α → Bool
  | .jsonFile _ _ => true
  | .imageFile _ _ => false

/-- The frame-writing loop of `main` (lines 68-72): frame `idx` is converted
RGB→BGR, rotated 90° clockwise, and written to `<dir>/<idx>.png`. -/
def imageEvents {α : Type} (dir : String) (idx : ℕ) :
    List Img → List (WriteEvent α)
  | [] => []
  | img :: rest =>
    WriteEvent.imageFile (pathJoin dir (toString idx ++ ".png")) (writtenImg img) ::
      imageEvents dir (idx + 1) rest

/-- The writing stage of `main` for one pair (lines 63-72): dump the
calibration JSON unchanged to `<dir>/calibration.json`, then write every
frame image. -/
def writeEvents {α : Type} (cal : α) (imgs : List Img) (dir : String) :
    List (WriteEvent α) :=
  WriteEvent.jsonFile (pathJoin dir "calibration.json") cal :: imageEvents dir 0 imgs

/-- The per-pair body of `main`'s loop (lines 57-72): decode the video
without calibration data — `load_video(video_fp)` is called with the default
`calibration_data=None` — then produce the pair's write events. -/
def processPair {α : Type} (calibration_json : α) (frames : List Frame)
    (dir : String) : Except PyErr (List (WriteEvent α)) :=
  (load_video frames none).map (fun imgs => writeEvents calibration_json imgs dir)

/-- The hypothetical per-pair pipeline in which the calibration record is
supplied to decoding (the validation path of `load_video`), with writing
strictly after decoding as in `main`: no write event exists unless decoding
returned successfully. -/
def processPairChecked (c : Calib) (frames : List Frame) (dir : String) :
    Except PyErr (List (WriteEvent Calib)) :=
  (load_video frames (some c)).map (fun imgs => writeEvents c imgs dir)

/-- The pair loop of `main` (lines 56-72): pair `idx` is processed into
directory `<outdir>/video_<idx>`; an exception aborts the remaining pairs. -/
def mainRunAux {α : Type} (outdir : String) (idx : ℕ) :
    List (α × List Frame) → Except PyErr (List (WriteEvent α))
  | [] => Except.ok []
  | (cal, frames) :: rest =>
    match processPair cal frames (pathJoin outdir ("video_" ++ toString idx)) with
    | Except.error e => Except.error e
    | Except.ok evs =>
      match mainRunAux outdir (idx + 1) rest with
      | Except.error e => Except.error e
      | Except.ok more => Except.ok (evs ++ more)

/-- Model of `main`'s processing of all discovered pairs, each pair given as
its loaded calibration JSON value and its decoded container frames. -/
def mainRun {α : Type} (pairs : List (α × List Frame)) (outdir : String) :
    Except PyErr (List (WriteEvent α)) :=
  mainRunAux outdir 0 pairs

/-- A concrete 2 × 3 test image used as a witness input. -/
def imgW : Img :=
  { h := 2, w := 3, pix := fun i j c => i * 100 + j * 10 + c.val }

/-- A concrete decoded frame at presentation time 0. -/
def frameW : Frame :=
  { time := 0, data := imgW }

/-- A calibration record whose single frame timestamp matches `frameW`. -/
def calMatch : Calib :=
  { sessionStartTime := 0, frames := [⟨0⟩] }

/-- A calibration record whose single frame timestamp deviates from `frameW`
by 1, far beyond the tolerance. -/
def calBad : Calib :=
  { sessionStartTime := 0, frames := [⟨1⟩] }

theorem loadVideoAux_none (frames : List Frame) :
    ∀ (idx : ℕ) (acc : List Img),
      loadVideoAux none idx acc frames =
        Except.ok (acc.reverse ++ frames.map Frame.data) := by
  induction frames with
  | nil => intro idx acc; simp [loadVideoAux]
  | cons f rest ih =>
    intro idx acc
    simp [loadVideoAux, ih (idx + 1) (f.data :: acc)]

theorem load_video_none (frames : List Frame) :
    load_video frames none = Except.ok (frames.map Frame.data) := by
  simp [load_video, loadVideoAux_none]

theorem frameCheck_isError (c : Calib) (idx : ℕ) (t : ℚ) :
    ∃ e, frameCheck c idx t = Except.error e := by
  unfold frameCheck
  split
  · split
    · exact ⟨PyErr.nameError, rfl⟩
    · exact ⟨PyErr.assertionError, rfl⟩
  · exact ⟨PyErr.indexError, rfl⟩

theorem load_video_some_cons (c : Calib) (f : Frame) (rest : List Frame) :
    ∀ e, frameCheck c 0 f.time = Except.error e →
      load_video (f :: rest) (some c) = Except.error e := by
  intro e he
  simp [load_video, loadVideoAux, he]

theorem load_video_some_isError (c : Calib) (frames : List Frame)
    (hne : frames ≠ []) : ∃ e, load_video frames (some c) = Except.error e := by
  match frames with
  | [] => exact absurd rfl hne
  | f :: rest =>
    obtain ⟨e, he⟩ := frameCheck_isError c 0 f.time
    exact ⟨e, load_video_some_cons c f rest e he⟩

theorem processPair_ok {α : Type} (cal : α) (frames : List Frame) (dir : String) :
    processPair cal frames dir =
      Except.ok (writeEvents cal (frames.map Frame.data) dir) := by
  simp [processPair, load_video_none, Except.map]

theorem mainRunAux_ok {α : Type} (outdir : String) (pairs : List (α × List Frame)) :
    ∀ idx, ∃ evs, mainRunAux outdir idx pairs = Except.ok evs := by
  induction pairs with
  | nil => intro idx; exact ⟨[], rfl⟩
  | cons pr rest ih =>
    intro idx
    obtain ⟨cal, frames⟩ := pr
    obtain ⟨evs, he⟩ := ih (idx + 1)
    exact ⟨writeEvents cal (frames.map Frame.data)
        (pathJoin outdir ("video_" ++ toString idx)) ++ evs,
      by simp [mainRunAux, processPair_ok, he]⟩

theorem imageEvents_length {α : Type} (dir : String) (imgs : List Img) :
    ∀ idx, (imageEvents (α := α) dir idx imgs).length = imgs.length := by
  induction imgs with
  | nil => intro idx; simp [imageEvents]
  | cons img rest ih => intro idx; simp [imageEvents, ih (idx + 1)]

theorem imageEvents_not_isJson {α : Type} (dir : String) (imgs : List Img) :
    ∀ idx, ∀ e ∈ imageEvents (α := α) dir idx imgs, e.isJson = false := by
  induction imgs with
  | nil => intro idx e he; simp [imageEvents] at he
  | cons img rest ih =>
    intro idx e he
    simp only [imageEvents, List.mem_cons] at he
    rcases he with rfl | he
    · rfl
    · exact ih (idx + 1) e he

theorem imageEvents_filter_isJson {α : Type} (dir : String) (imgs : List Img)
    (idx : ℕ) :
    (imageEvents (α := α) dir idx imgs).filter (fun e => e.isJson) = [] := by
  rw [List.filter_eq_nil_iff]
  intro e he
  simp [imageEvents_not_isJson dir imgs idx e he]

theorem imageEvents_filter_not_isJson {α : Type} (dir : String) (imgs : List Img)
    (idx : ℕ) :
    (imageEvents (α := α) dir idx imgs).filter (fun e => !e.isJson) =
      imageEvents (α := α) dir idx imgs := by
  rw [List.filter_eq_self]
  intro e he
  simp [imageEvents_not_isJson dir imgs idx e he]

/-- C1: for every run in which a calibration record is supplied to decoding,
if some frame's presentation time plus the session start offset deviates from
the calibration's recorded timestamp for that frame index by more than the
tolerance (1e-3), then an error is raised during decoding, and no calibration
JSON or image write event is ever produced for that pair. -/
theorem mismatch_aborts_before_write (c : Calib) (frames : List Frame)
    (dir : String) (i : ℕ) (hif : i < frames.length) (hic : i < c.frames.length)
    (hdev : 1/1000 < |(frames.get ⟨i, hif⟩).time + c.sessionStartTime -
        (c.frames.get ⟨i, hic⟩).timestamp|) :
    ∃ e, processPairChecked c frames dir = Except.error e ∧
      ∀ evs, processPairChecked c frames dir ≠ Except.ok evs := by
  have hne : frames ≠ [] := by
    intro h
    subst h
    simp at hif
  obtain ⟨e, he⟩ := load_video_some_isError c frames hne
  refine ⟨e, by simp [processPairChecked, he, Except.map], ?_⟩
  intro evs hevs
  simp [processPairChecked, he, Except.map] at hevs

/-- Witness for C1 at a concrete mismatching pair: frame time 0 against
recorded timestamp 1. -/
theorem mismatch_aborts_before_write_witness :
    ∃ e, processPairChecked calBad [frameW] "out" = Except.error e ∧
      ∀ evs, processPairChecked calBad [frameW] "out" ≠ Except.ok evs :=
  mismatch_aborts_before_write calBad [frameW] "out" 0 (by decide)
    (by decide) (by norm_num [frameW, calBad])

/-- C2: with a non-None calibration record and at least one decoded frame,
`load_video` always raises; and when every frame's timestamp matches the
calibration record within tolerance, the raised error is the `NameError`
from the undefined name `timestamps`, so the validation path can never
complete successfully. -/
theorem validation_path_always_raises (c : Calib) (frames : List Frame)
    (hne : frames ≠ []) :
    (∃ e, load_video frames (some c) = Except.error e) ∧
    ((∀ i (hi : i < frames.length), ∃ hc : i < c.frames.length,
        |(frames.get ⟨i, hi⟩).time + c.sessionStartTime -
          (c.frames.get ⟨i, hc⟩).timestamp| < 1/1000) →
      load_video frames (some c) = Except.error PyErr.nameError) := by
  match frames with
  | [] => exact absurd rfl hne
  | f :: rest =>
    refine ⟨load_video_some_isError c (f :: rest) hne, ?_⟩
    intro hmatch
    obtain ⟨hc, hdev⟩ := hmatch 0 (by simp)
    refine load_video_some_cons c f rest PyErr.nameError ?_
    have hdev2 : |f.time + c.sessionStartTime -
        (c.frames.get ⟨0, hc⟩).timestamp| < 1/1000 := by simpa using hdev
    unfold frameCheck
    rw [dif_pos hc, if_pos hdev2]

/-- Witness for C2 at a concrete matching pair: frame time 0 against
recorded timestamp 0, which still raises `NameError`. -/
theorem validation_path_always_raises_witness :
    (∃ e, load_video [frameW] (some calMatch) = Except.error e) ∧
    load_video [frameW] (some calMatch) = Except.error PyErr.nameError := by
  have h := validation_path_always_raises calMatch [frameW] (by simp)
  refine ⟨h.1, h.2 ?_⟩
  intro i hi
  have hi0 : i = 0 := by simpa using hi
  subst hi0
  refine ⟨by decide, ?_⟩
  show |frameW.time + calMatch.sessionStartTime - (0 : ℚ)| < 1/1000
  norm_num [frameW, calMatch]

/-- C3: the write-time transform (RGB→BGR channel swap, then 90° clockwise
rotation) is inverted exactly by the 90° counter-clockwise rotation followed
by the inverse channel swap: dimensions are restored and every in-bounds
pixel of the original decoded frame is reproduced. -/
theorem write_transform_invertible (m : Img) (i j : ℕ) (c : Fin 3)
    (hi : i < m.h) :
    (bgrSwap (rotCCW (writtenImg m))).h = m.h ∧
    (bgrSwap (rotCCW (writtenImg m))).w = m.w ∧
    (bgrSwap (rotCCW (writtenImg m))).pix i j c = m.pix i j c := by
  refine ⟨rfl, rfl, ?_⟩
  simp only [writtenImg, bgrSwap, rotCW, rotCCW, Fin.rev_rev]
  have h : m.h - 1 - (m.h - 1 - i) = i := by omega
  rw [h]

/-- Witness for C3 at the concrete 2 × 3 image `imgW`, pixel (1, 2),
channel 0. -/
theorem write_transform_invertible_witness :
    (bgrSwap (rotCCW (writtenImg imgW))).h = imgW.h ∧
    (bgrSwap (rotCCW (writtenImg imgW))).w = imgW.w ∧
    (bgrSwap (rotCCW (writtenImg imgW))).pix 1 2 0 = imgW.pix 1 2 0 :=
  write_transform_invertible imgW 1 2 0 (by decide)

/-- C4: for a directory whose entries are exactly `a.json` and `a.mov`, the
pairing operation returns exactly one pair, the path to `a.json` and the
path to `a.mov`. -/
theorem pairing_json_mov (root : String) :
    get_paired_data root ["a.json", "a.mov"] "mov" =
      [(pathJoin root "a.json", pathJoin root "a.mov")] := by
  have h : collectNames ["a.json", "a.mov"] = ["a"] := by decide
  simp only [get_paired_data, h, List.map_cons, List.map_nil]
  rfl

/-- C5: for a directory whose entries are exactly `a_calibration.json` and
`a.mov`, pairing produces the same result as for `a.json` and `a.mov`:
exactly one pair referencing `<root>/a.json` and `<root>/a.mov` (the
`_calibration` suffix is stripped from the stem). -/
theorem pairing_calibration_suffix_stripped (root : String) :
    get_paired_data root ["a_calibration.json", "a.mov"] "mov" =
      get_paired_data root ["a.json", "a.mov"] "mov" ∧
    get_paired_data root ["a_calibration.json", "a.mov"] "mov" =
      [(pathJoin root "a.json", pathJoin root "a.mov")] := by
  have h : collectNames ["a_calibration.json", "a.mov"] = ["a"] := by decide
  have h2 : collectNames ["a.json", "a.mov"] = ["a"] := by decide
  constructor
  · simp only [get_paired_data, h, h2]
  · simp only [get_paired_data, h, List.map_cons, List.map_nil]
    rfl

/-- C6: for every directory listing and every base name derived from it,
pairing outputs the constructed path pair `(<name>.json, <name>.<ext>)`; the
output is exactly the image of the derived names under path construction, a
function of the listing alone — no existence information is consumed. -/
theorem pairing_no_existence_check (root : String) (entries : List String)
    (ext : String) (name : String) (hmem : name ∈ collectNames entries) :
    (pathJoin root (name ++ ".json"), pathJoin root (name ++ "." ++ ext)) ∈
      get_paired_data root entries ext ∧
    get_paired_data root entries ext =
      (collectNames entries).map (fun n =>
        (pathJoin root (n ++ ".json"), pathJoin root (n ++ "." ++ ext))) :=
  ⟨List.mem_map_of_mem _ hmem, rfl⟩

/-- Witness for C6: a listing holding only `ghost.mov` still yields the pair
for the nonexistent `ghost.json`. -/
theorem pairing_no_existence_check_witness :
    (pathJoin "r" ("ghost" ++ ".json"), pathJoin "r" ("ghost" ++ "." ++ "mov")) ∈
      get_paired_data "r" ["ghost.mov"] "mov" ∧
    get_paired_data "r" ["ghost.mov"] "mov" =
      (collectNames ["ghost.mov"]).map (fun n =>
        (pathJoin "r" (n ++ ".json"), pathJoin "r" (n ++ "." ++ "mov"))) :=
  pairing_no_existence_check "r" ["ghost.mov"] "mov" "ghost" (by decide)

/-- C7: decoding without calibration data returns exactly the video's decoded
frames in decode order — one image per frame — and when every container frame
has dimensions `H × W`, every returned image does too (each is a 3-channel
image by construction of `Img`). -/
theorem decode_length_and_dims (frames : List Frame) (H W : ℕ)
    (hdim : ∀ f ∈ frames, f.data.h = H ∧ f.data.w = W) :
    load_video frames none = Except.ok (frames.map Frame.data) ∧
    (frames.map Frame.data).length = frames.length ∧
    ∀ img ∈ frames.map Frame.data, img.h = H ∧ img.w = W := by
  refine ⟨load_video_none frames, by simp, ?_⟩
  intro img himg
  obtain ⟨f, hf, rfl⟩ := List.mem_map.mp himg
  exact hdim f hf

/-- Witness for C7 on a one-frame video of 2 × 3 images. -/
theorem decode_length_and_dims_witness :
    load_video [frameW] none = Except.ok ([frameW].map Frame.data) ∧
    ([frameW].map Frame.data).length = [frameW].length ∧
    ∀ img ∈ [frameW].map Frame.data, img.h = 2 ∧ img.w = 3 :=
  decode_length_and_dims [frameW] 2 3 (by
    intro f hf
    rw [List.mem_singleton] at hf
    subst hf
    exact ⟨rfl, rfl⟩)

/-- C8: the writing stage for a pair with N decoded frames produces exactly
N + 1 write events: exactly one JSON write, at `<dir>/calibration.json`,
whose content is the input calibration record unchanged, and exactly N image
writes. -/
theorem write_stage_counts {α : Type} (cal : α) (imgs : List Img)
    (dir : String) :
    (writeEvents cal imgs dir).length = imgs.length + 1 ∧
    (writeEvents cal imgs dir).filter (fun e => e.isJson) =
      [WriteEvent.jsonFile (pathJoin dir "calibration.json") cal] ∧
    ((writeEvents cal imgs dir).filter (fun e => !e.isJson)).length =
      imgs.length := by
  refine ⟨?_, ?_, ?_⟩
  · simp [writeEvents, imageEvents_length]
  · simp only [writeEvents, List.filter_cons]
    split
    · rw [imageEvents_filter_isJson]
    · next hfalse => exact absurd rfl hfalse
  · simp only [writeEvents, List.filter_cons]
    split
    · next htrue => simp [WriteEvent.isJson] at htrue
    · rw [imageEvents_filter_not_isJson, imageEvents_length]

/-- C9: in `main`, every pair is decoded with `load_video(video_fp)` — no
calibration data — so the orchestration always succeeds at the decode stage
and can never raise a timestamp-mismatch (or any validation) error. -/
theorem main_never_checks_timestamps {α : Type}
    (pairs : List (α × List Frame)) (outdir : String) :
    (∀ (cal : α) (frames : List Frame) (dir : String),
      processPair cal frames dir =
        Except.ok (writeEvents cal (frames.map Frame.data) dir)) ∧
    (∃ evs, mainRun pairs outdir = Except.ok evs) ∧
    ∀ e, mainRun pairs outdir ≠ Except.error e := by
  obtain ⟨evs, he⟩ := mainRunAux_ok outdir pairs 0
  exact ⟨fun cal frames dir => processPair_ok cal frames dir,
    ⟨evs, he⟩, fun e hcontra => by rw [mainRun, he] at hcontra; exact Except.noConfusion hcontra⟩

/-- C10: the image written for a decoded `h × w` frame has its spatial
dimensions transposed to `w × h` by the 90° clockwise rotation (the channel
count stays 3 by construction of `Img`). -/
theorem written_image_transposed (m : Img) :
    (writtenImg m).h = m.w ∧ (writtenImg m).w = m.h :=
  ⟨rfl, rfl⟩

end ProcessData
